import Mathlib

/-!
Shallow embedding of the gisrest service (src/manage.py, src/settings.py).

The service stores rows in a table users(id, name, location); each handler
parses HTTP parameters with Python decimal.Decimal, runs one SQL statement,
and returns a JSON object with a single top-level key.  We model:

  * coordinates and parsed parameters as rationals (Python Decimal values);
  * the table as a list of rows plus the next serial id;
  * raised Python exceptions (decimal.InvalidOperation, KeyError, TypeError)
    as the error side of Except;
  * request parameters (query string, form body, path match_info) as
    association lists from keys to raw strings, looked up with List.lookup,
    which returns the first binding like aiohttp MultiDict.get does;
  * the spatial engine distance used by ST_DWithin as an explicit function
    argument dist : srid -> point -> point -> distance, since its semantics
    are delegated to the database.
-/

set_option linter.unusedVariables false

/-- JSON values, enough for the shapes this service emits. -/
inductive JVal where
  | num : Rat → JVal
  | str : String → JVal
  | int : Int → JVal
  | obj : List (String × JVal) → JVal
  | arr : List JVal → JVal

/-- A JSON response body: a top-level object, as key/value pairs. -/
def Resp := List (String × JVal)

/-- Python exceptions the handlers can raise. -/
inductive PyErr where
  | invalidOperation
  | keyError : String → PyErr
  | typeError
deriving DecidableEq

/-- One row of the users table: id (serial int), name, and the stored
point, written by the code as POINT(lat lng), so x = lat and y = lng. -/
structure Row where
  id : Int
  name : String
  loc : Rat × Rat
deriving DecidableEq

/-- Database state: the users table plus the next serial id. -/
structure DB where
  rows : List Row
  nextId : Int
deriving DecidableEq

/-- settings.SRID -/
def SRID : Nat := 4326

/-- Value of a digit string, most significant first. -/
def digitsVal (l : List Char) : Nat :=
  l.foldl (fun a c => 10 * a + (c.toNat - 48)) 0

/-- Unsigned decimal literal, as numerator and denominator: digit chars
with at most one point and at least one digit. -/
def parseUnsigned (l : List Char) : Option (Nat × Nat) :=
  let i := l.takeWhile (fun c => c != '.')
  let rest := l.dropWhile (fun c => c != '.')
  match rest with
  | [] =>
      if !i.isEmpty && i.all Char.isDigit then some (digitsVal i, 1) else none
  | _ :: f =>
      if !(i.isEmpty && f.isEmpty) && i.all Char.isDigit &&
          f.all (fun c => c != '.') && f.all Char.isDigit then
        some (digitsVal i * 10 ^ f.length + digitsVal f, 10 ^ f.length)
      else none

/-- Models the Python decimal.Decimal constructor on the plain numeric
strings this service receives: optional sign, digits with at most one
point.  Returns none where Decimal raises decimal.InvalidOperation.
(Exponent and Infinity/NaN forms are outside the fragment exercised.) -/
def parseDecimal (s : String) : Option Rat :=
  match s.data with
  | [] => none
  | c :: rest =>
      let signed : Bool × List Char :=
        if c = '-' then (true, rest)
        else if c = '+' then (false, rest)
        else (false, c :: rest)
      match parseUnsigned signed.2 with
      | none => none
      | some (n, d) =>
          some (mkRat (if signed.1 then -(n : Int) else (n : Int)) d)

/-- Decimal(s), raising decimal.InvalidOperation on bad input. -/
def parseOrRaise (s : String) : Except PyErr Rat :=
  match parseDecimal s with
  | some v => Except.ok v
  | none => Except.error PyErr.invalidOperation

/-- Decimal(request.match_info.get(key, 0)) for a single path parameter:
absent parameter defaults to 0, present one is parsed (and may raise). -/
def getPathId (p : Option String) : Except PyErr Rat :=
  match p with
  | none => Except.ok 0
  | some s => parseOrRaise s

/-- Decimal(params.get(key, default)) over an association list. -/
def getParam (params : List (String × String)) (key : String) (dflt : Rat) :
    Except PyErr Rat :=
  match List.lookup key params with
  | none => Except.ok dflt
  | some s => parseOrRaise s

/-- Python truthiness of an optional string (None and "" are falsy). -/
def truthyS : Option String → Bool
  | none => false
  | some s => !s.isEmpty

/-- Python truthiness of an optional Decimal (None and 0 are falsy). -/
def truthyD : Option Rat → Bool
  | none => false
  | some q => decide (q ≠ 0)

/-- dict(zip(settings.USER_HEADER, row)) for one SELECT row
(id, name, ST_X(location), ST_Y(location)) with
USER_HEADER = (user_id, name, lat, lng). -/
def userToJson (r : Row) : JVal :=
  JVal.obj [("user_id", JVal.int r.id), ("name", JVal.str r.name),
            ("lat", JVal.num r.loc.1), ("lng", JVal.num r.loc.2)]

/-- App.locate_handler (manage.py lines 29-51).  Parses lat, lng, radius,
limit (defaults 0, 0, 1, 1) and executes

  SELECT id, name, ST_X(location), ST_Y(location) FROM users
  WHERE ST_DWithin(location, ST_SetSRID(ST_MakePoint(%s, %s), %s), %s)
  LIMIT %s

with the positional parameter tuple (lat, lng, radius, settings.SRID,
limit): so the placeholder for the SRID of the query point receives
radius, and the ST_DWithin distance placeholder receives the constant
settings.SRID = 4326.  The spatial predicate is modelled by the supplied
dist function: dist srid p q gives the engine distance between p and q
under spatial reference srid. -/
def locate_handler (dist : Rat → Rat × Rat → Rat × Rat → Rat)
    (query : List (String × String)) (db : DB) : Except PyErr (DB × Resp) :=
  match getParam query "lat" 0 with
  | Except.error e => Except.error e
  | Except.ok lat =>
    match getParam query "lng" 0 with
    | Except.error e => Except.error e
    | Except.ok lng =>
      match getParam query "radius" 1 with
      | Except.error e => Except.error e
      | Except.ok radius =>
        match getParam query "limit" 1 with
        | Except.error e => Except.error e
        | Except.ok limit =>
          Except.ok (db, [("users", JVal.arr
            (((db.rows.filter
                (fun r => decide (dist radius r.loc (lat, lng) ≤ (SRID : Rat)))).take
              limit.floor.toNat).map userToJson))])

/-- App.get_user_handler (manage.py lines 53-67).  Parses the user_id path
parameter, selects the row with that id, and builds
dict(zip(USER_HEADER, row)).  When the SELECT matches no row, fetchone()
returns None and dict(zip(USER_HEADER, None)) raises TypeError. -/
def get_user_handler (userIdParam : Option String) (db : DB) :
    Except PyErr (DB × Resp) :=
  match getPathId userIdParam with
  | Except.error e => Except.error e
  | Except.ok user_id =>
    match (db.rows.filter (fun r => decide ((r.id : Rat) = user_id))).head? with
    | none => Except.error PyErr.typeError
    | some r => Except.ok (db, [("user", userToJson r)])

/-- lat = Decimal(data["lat"]) if "lat" in data else None (line 78). -/
def readLat (data : List (String × String)) : Except PyErr (Option Rat) :=
  match List.lookup "lat" data with
  | some s => (parseOrRaise s).map some
  | none => Except.ok none

/-- lng = Decimal(data["lng"]) if "lat" in data else None (line 79): the
source tests the presence of "lat", not "lng", so when "lat" is present
but "lng" is absent, data["lng"] raises KeyError. -/
def readLng (data : List (String × String)) : Except PyErr (Option Rat) :=
  if (List.lookup "lat" data).isSome then
    match List.lookup "lng" data with
    | some s => (parseOrRaise s).map some
    | none => Except.error (PyErr.keyError "lng")
  else Except.ok none

/-- The UPDATE statement of update_user_handler (lines 87-101): SET
location = POINT(lat lng) only when both lat and lng are truthy, SET
name only when name is truthy, applied to every row WHERE id = user_id. -/
def applyUpdate (db : DB) (user_id : Rat) (lat lng : Option Rat)
    (name : Option String) : DB :=
  { db with rows := db.rows.map (fun r =>
      if (r.id : Rat) = user_id then
        { r with
          loc := if truthyD lat && truthyD lng then (lat.getD 0, lng.getD 0) else r.loc
          name := if truthyS name then name.getD r.name else r.name }
      else r) }

/-- App.update_user_handler (manage.py lines 69-102).  Parses user_id,
lat, lng (see readLat/readLng), name = data.get("name"); rejects falsy
user_id, then rejects when name is falsy and the pair (lat and lng) is
falsy; otherwise applies the partial UPDATE and reports success. -/
def update_user_handler (userIdParam : Option String)
    (data : List (String × String)) (db : DB) : Except PyErr (DB × Resp) :=
  match getPathId userIdParam with
  | Except.error e => Except.error e
  | Except.ok user_id =>
    match readLat data with
    | Except.error e => Except.error e
    | Except.ok lat =>
      match readLng data with
      | Except.error e => Except.error e
      | Except.ok lng =>
        let name := List.lookup "name" data
        if user_id = 0 then
          Except.ok (db, [("result", JVal.str "Invalid user id")])
        else if !truthyS name && !(truthyD lat && truthyD lng) then
          Except.ok (db, [("result", JVal.str "Invalid update data")])
        else
          Except.ok (applyUpdate db user_id lat lng name,
                     [("result", JVal.str "success")])

/-- App.create_user_handler (manage.py lines 104-122).  The handler never
reads the request body: lat and lng come from
Decimal(request.match_info.get(..., 0)) over the PATH parameters, and
name = request.match_info.get("lng", "user") — the name is read from the
"lng" path key (line 113).  The PUT /user route declares no path
parameters, so on real requests matchInfo is empty.  The INSERT stores
(name, POINT(lat lng)) and RETURNING id yields the new serial id. -/
def create_user_handler (matchInfo : List (String × String))
    (body : List (String × String)) (db : DB) : Except PyErr (DB × Resp) :=
  match getParam matchInfo "lat" 0 with
  | Except.error e => Except.error e
  | Except.ok lat =>
    match getParam matchInfo "lng" 0 with
    | Except.error e => Except.error e
    | Except.ok lng =>
      let name := (List.lookup "lng" matchInfo).getD "user"
      Except.ok
        ({ rows := db.rows ++ [{ id := db.nextId, name := name, loc := (lat, lng) }],
           nextId := db.nextId + 1 },
         [("user_id", JVal.int db.nextId)])

/-- App.delete_user_handler (manage.py lines 124-135).  Parses user_id,
executes DELETE FROM users WHERE id = user_id, and reports success
whether or not any row matched. -/
def delete_user_handler (userIdParam : Option String) (db : DB) :
    Except PyErr (DB × Resp) :=
  match getPathId userIdParam with
  | Except.error e => Except.error e
  | Except.ok user_id =>
    Except.ok
      ({ db with rows := db.rows.filter (fun r => !(decide ((r.id : Rat) = user_id))) },
       [("result", JVal.str "success")])

/-! ## Sample database states used by concrete theorems -/

/-- The empty table, next serial id 1. -/
def dbEmpty : DB := { rows := [], nextId := 1 }

/-- A table holding one user, id 1, named bob, stored at POINT(100 0). -/
def dbBob : DB := { rows := [{ id := 1, name := "bob", loc := (100, 0) }], nextId := 2 }

/-- Claim C1: the spec asserts that PUT /user with body lat=10, lng=20,
name=alice inserts a user with that name and point and that a later GET
of the returned id yields name alice, lat 10, lng 20.  The handler never
reads the request body: it reads lat, lng from path match_info (empty on
the PUT /user route) and name from the "lng" path key, so it inserts
name "user" at POINT(0 0), and the subsequent GET returns those
defaults, which differ from the supplied values. -/
theorem create_ignores_body :
    create_user_handler [] [("lat", "10"), ("lng", "20"), ("name", "alice")] dbEmpty =
      Except.ok ({ rows := [{ id := 1, name := "user", loc := (0, 0) }], nextId := 2 },
        [("user_id", JVal.int 1)])
    ∧ get_user_handler (some "1")
        { rows := [{ id := 1, name := "user", loc := (0, 0) }], nextId := 2 } =
      Except.ok ({ rows := [{ id := 1, name := "user", loc := (0, 0) }], nextId := 2 },
        [("user", JVal.obj [("user_id", JVal.int 1), ("name", JVal.str "user"),
                            ("lat", JVal.num 0), ("lng", JVal.num 0)])])
    ∧ ("user" ≠ "alice" ∧ (0 : Rat) ≠ 10 ∧ (0 : Rat) ≠ 20) :=
  ⟨rfl, rfl, by decide⟩

/-- Claim C2: the spec asserts every returned record lies within radius
of the query point under SRID 4326.  The positional SQL parameters
(lat, lng, radius, SRID, limit) are bound to the placeholders point-x,
point-y, SRID-of-point, DWithin-distance, limit, so the engine distance
threshold is the constant 4326 and radius is passed as the SRID.  Under
an admissible engine semantics (here a discrete metric scaled to 100),
a user at engine distance 100 from the query point is returned although
radius = 10. -/
theorem locate_distance_bound_constant :
    locate_handler (fun _ p q => if p = q then 0 else 100)
        [("lat", "0"), ("lng", "0"), ("radius", "10"), ("limit", "10")] dbBob =
      Except.ok (dbBob,
        [("users", JVal.arr [userToJson { id := 1, name := "bob", loc := (100, 0) }])])
    ∧ ((fun (_ : Rat) (p q : Rat × Rat) => if p = q then (0 : Rat) else 100)
        4326 (100, 0) (0, 0) > 10) :=
  ⟨rfl, by decide⟩

/-- Claim C3 counterexample: a GET for an id with no matching row does
not return a JSON object built from an empty row; fetchone() yields None
and dict(zip(USER_HEADER, None)) raises TypeError. -/
theorem get_missing_user_counterexample :
    get_user_handler (some "5") dbEmpty = Except.error PyErr.typeError :=
  rfl

/-- Claim C3 amended: for every GET /user/user_id request where no user
row with that id exists — including immediately after a delete of that
id — the get handler raises TypeError (from dict(zip(USER_HEADER, None)))
and produces no JSON response. -/
theorem get_missing_user_raises (db : DB) (s : String) (q : Rat)
    (hs : parseDecimal s = some q) :
    (db.rows.filter (fun r => decide ((r.id : Rat) = q)) = [] →
      get_user_handler (some s) db = Except.error PyErr.typeError)
    ∧ (∀ db2 resp, delete_user_handler (some s) db = Except.ok (db2, resp) →
      get_user_handler (some s) db2 = Except.error PyErr.typeError) := by
  constructor
  · intro hnone
    simp [get_user_handler, getPathId, parseOrRaise, hs, hnone]
  · intro db2 resp hdel
    simp [delete_user_handler, getPathId, parseOrRaise, hs] at hdel
    simp [get_user_handler, getPathId, parseOrRaise, hs, ← hdel.1,
      List.filter_filter]

theorem get_missing_user_raises_witness :
    get_user_handler (some "5") dbBob = Except.error PyErr.typeError :=
  (get_missing_user_raises dbBob "5" 5 rfl).1 rfl

/-- Claim C4 counterexample: an update body supplying lat but not lng
(and no name) does not produce the error JSON; line 79 evaluates
data["lng"] because only the presence of "lat" is tested, raising an
uncaught KeyError. -/
theorem update_lat_without_lng_raises :
    update_user_handler (some "1") [("lat", "1")] dbBob =
      Except.error (PyErr.keyError "lng") :=
  rfl

/-- Claim C4 amended: for a nonzero user id and a body lacking the
required update fields, the handler returns a successful response with
the JSON field result = "Invalid update data" and leaves the table
unchanged, provided the body does not supply lat without lng: bodies
without a lat key (with or without lng), and bodies whose complete
(lat, lng) pair parses with a zero coordinate, are rejected with that
payload; a body supplying lat but not lng instead raises KeyError. -/
theorem update_missing_fields_rejected (db : DB) (s : String) (q : Rat)
    (data : List (String × String))
    (hs : parseDecimal s = some q) (hq : q ≠ 0)
    (hname : List.lookup "name" data = none ∨ List.lookup "name" data = some "")
    (hlat : List.lookup "lat" data = none ∨
      (∃ sa sb qa qb, List.lookup "lat" data = some sa ∧
        List.lookup "lng" data = some sb ∧ parseDecimal sa = some qa ∧
        parseDecimal sb = some qb ∧ (qa = 0 ∨ qb = 0))) :
    update_user_handler (some s) data db =
      Except.ok (db, [("result", JVal.str "Invalid update data")]) := by
  have hts : truthyS (List.lookup "name" data) = false := by
    rcases hname with h | h <;> rw [h] <;> rfl
  rcases hlat with h | ⟨sa, sb, qa, qb, hla, hlb, hpa, hpb, h0⟩
  · simp [update_user_handler, getPathId, parseOrRaise, readLat, readLng,
      hs, hq, h, hts, truthyD]
  · rcases h0 with h0 | h0 <;> subst h0 <;>
      simp [update_user_handler, getPathId, parseOrRaise, readLat, readLng,
        Except.map, hs, hq, hla, hlb, hpa, hpb, hts, truthyD]

theorem update_missing_fields_rejected_witness :
    update_user_handler (some "1") [("lng", "5")] dbBob =
      Except.ok (dbBob, [("result", JVal.str "Invalid update data")]) :=
  update_missing_fields_rejected dbBob "1" 1 [("lng", "5")] rfl (by decide)
    (Or.inl rfl) (Or.inl rfl)

/-- Claim C5: frame property of update on an arbitrary table.  A body
supplying only a (truthy) name rewrites exactly the name of the rows
matching the id and leaves their location (and everything else)
unchanged; a body supplying only a complete nonzero (lat, lng) pair
rewrites exactly the location; a body supplying both rewrites both. -/
theorem update_frame_effect (db : DB) (s n sa sb : String) (q qa qb : Rat)
    (hs : parseDecimal s = some q) (hq : q ≠ 0) (hn : n.isEmpty = false)
    (ha : parseDecimal sa = some qa) (hb : parseDecimal sb = some qb)
    (ha0 : qa ≠ 0) (hb0 : qb ≠ 0) :
    (update_user_handler (some s) [("name", n)] db =
      Except.ok ({ db with rows := db.rows.map (fun r =>
          if (r.id : Rat) = q then { r with name := n } else r) },
        [("result", JVal.str "success")]))
    ∧ (update_user_handler (some s) [("lat", sa), ("lng", sb)] db =
      Except.ok ({ db with rows := db.rows.map (fun r =>
          if (r.id : Rat) = q then { r with loc := (qa, qb) } else r) },
        [("result", JVal.str "success")]))
    ∧ (update_user_handler (some s) [("lat", sa), ("lng", sb), ("name", n)] db =
      Except.ok ({ db with rows := db.rows.map (fun r =>
          if (r.id : Rat) = q then { r with name := n, loc := (qa, qb) } else r) },
        [("result", JVal.str "success")])) := by
  refine ⟨?_, ?_, ?_⟩ <;>
    simp [update_user_handler, getPathId, parseOrRaise, readLat, readLng,
      applyUpdate, List.lookup, Except.map, hs, hq, ha, hb, ha0, hb0, hn,
      truthyS, truthyD]

theorem update_frame_effect_witness :
    (update_user_handler (some "1") [("name", "amy")] dbBob =
      Except.ok ({ dbBob with rows := dbBob.rows.map (fun r =>
          if (r.id : Rat) = 1 then { r with name := "amy" } else r) },
        [("result", JVal.str "success")]))
    ∧ (update_user_handler (some "1") [("lat", "3"), ("lng", "4")] dbBob =
      Except.ok ({ dbBob with rows := dbBob.rows.map (fun r =>
          if (r.id : Rat) = 1 then { r with loc := (3, 4) } else r) },
        [("result", JVal.str "success")]))
    ∧ (update_user_handler (some "1") [("lat", "3"), ("lng", "4"), ("name", "amy")] dbBob =
      Except.ok ({ dbBob with rows := dbBob.rows.map (fun r =>
          if (r.id : Rat) = 1 then { r with name := "amy", loc := (3, 4) } else r) },
        [("result", JVal.str "success")])) :=
  update_frame_effect dbBob "1" "amy" "3" "4" 1 3 4 rfl (by decide) rfl rfl rfl
    (by decide) (by decide)

/-- Claim C6: DELETE reports the success payload for every user id,
whether or not a row matched, and deleting an id with no matching row
leaves the table unchanged. -/
theorem delete_reports_success_and_noop (db : DB) (s : String) (q : Rat)
    (hs : parseDecimal s = some q) :
    delete_user_handler (some s) db =
      Except.ok ({ db with rows := db.rows.filter (fun r => !(decide ((r.id : Rat) = q))) },
        [("result", JVal.str "success")])
    ∧ ((∀ r ∈ db.rows, (r.id : Rat) ≠ q) →
      delete_user_handler (some s) db =
        Except.ok (db, [("result", JVal.str "success")])) := by
  have hrun : delete_user_handler (some s) db =
      Except.ok ({ db with rows := db.rows.filter (fun r => !(decide ((r.id : Rat) = q))) },
        [("result", JVal.str "success")]) := by
    simp [delete_user_handler, getPathId, parseOrRaise, hs]
  refine ⟨hrun, fun h => ?_⟩
  have hself : db.rows.filter (fun r => !(decide ((r.id : Rat) = q))) = db.rows :=
    List.filter_eq_self.mpr (fun a ha => by simp [h a ha])
  rw [hrun, hself]

theorem delete_reports_success_and_noop_witness :
    delete_user_handler (some "7") dbBob =
      Except.ok (dbBob, [("result", JVal.str "success")]) :=
  (delete_reports_success_and_noop dbBob "7" 7 rfl).2 (by decide)

/-- Claim C7 counterexample: a GET with the non-numeric user_id "abc"
does not default to 0; Decimal("abc") raises decimal.InvalidOperation,
so the handler raises instead of answering. -/
theorem get_invalid_user_id_counterexample :
    get_user_handler (some "abc") dbBob = Except.error PyErr.invalidOperation :=
  rfl

/-- Claim C7 amended: the user id of the GET lookup defaults to 0 only
when the path parameter is absent (the request then behaves exactly as a
lookup of id 0); a present but non-numeric user_id string makes
Decimal raise decimal.InvalidOperation, so the handler raises. -/
theorem get_user_id_default_and_invalid (db : DB) :
    get_user_handler none db = get_user_handler (some "0") db
    ∧ (∀ s, parseDecimal s = none →
      get_user_handler (some s) db = Except.error PyErr.invalidOperation) := by
  refine ⟨rfl, fun s h => ?_⟩
  simp [get_user_handler, getPathId, parseOrRaise, h]

theorem get_user_id_default_and_invalid_witness :
    get_user_handler (some "13a") dbEmpty = Except.error PyErr.invalidOperation :=
  (get_user_id_default_and_invalid dbEmpty).2 "13a" rfl

/-- Claim C8: whenever a handler produces a response at all, the
response body is a JSON object with exactly one top-level key: users
for locate, user for get, result for update and delete, user_id for
create. -/
theorem handlers_single_top_level_key :
    (∀ dist query db db2 resp, locate_handler dist query db = Except.ok (db2, resp) →
      ∃ v, resp = [("users", v)])
    ∧ (∀ p db db2 resp, get_user_handler p db = Except.ok (db2, resp) →
      ∃ v, resp = [("user", v)])
    ∧ (∀ p data db db2 resp, update_user_handler p data db = Except.ok (db2, resp) →
      ∃ v, resp = [("result", v)])
    ∧ (∀ mi body db db2 resp, create_user_handler mi body db = Except.ok (db2, resp) →
      ∃ v, resp = [("user_id", v)])
    ∧ (∀ p db db2 resp, delete_user_handler p db = Except.ok (db2, resp) →
      ∃ v, resp = [("result", v)]) := by
  refine ⟨?_, ?_, ?_, ?_, ?_⟩
  · intro dist query db db2 resp h
    unfold locate_handler at h
    repeat' split at h
    all_goals simp at h
    all_goals exact ⟨_, h.2.symm⟩
  · intro p db db2 resp h
    unfold get_user_handler at h
    repeat' split at h
    all_goals simp at h
    all_goals exact ⟨_, h.2.symm⟩
  · intro p data db db2 resp h
    unfold update_user_handler at h
    repeat' split at h
    all_goals (try (rcases ite_eq_iff.mp h with ⟨hc, hh⟩ | ⟨hc, hh⟩ <;>
      (simp at hh; exact ⟨_, hh.2.symm⟩)))
    all_goals simp at h
    all_goals exact ⟨_, h.2.symm⟩
  · intro mi body db db2 resp h
    unfold create_user_handler at h
    repeat' split at h
    all_goals simp at h
    all_goals exact ⟨_, h.2.symm⟩
  · intro p db db2 resp h
    unfold delete_user_handler at h
    repeat' split at h
    all_goals simp at h
    all_goals exact ⟨_, h.2.symm⟩

theorem handlers_single_top_level_key_witness :
    (∃ v, ([("users", JVal.arr [])] : Resp) = [("users", v)])
    ∧ (∃ v, ([("user", userToJson { id := 1, name := "bob", loc := (100, 0) })] : Resp) =
        [("user", v)])
    ∧ (∃ v, ([("result", JVal.str "Invalid user id")] : Resp) = [("result", v)])
    ∧ (∃ v, ([("user_id", JVal.int 1)] : Resp) = [("user_id", v)])
    ∧ (∃ v, ([("result", JVal.str "success")] : Resp) = [("result", v)]) :=
  ⟨handlers_single_top_level_key.1 (fun _ _ _ => 0) [] dbEmpty dbEmpty _ rfl,
   handlers_single_top_level_key.2.1 (some "1") dbBob dbBob _ rfl,
   handlers_single_top_level_key.2.2.1 (some "0") [] dbEmpty dbEmpty _ rfl,
   handlers_single_top_level_key.2.2.2.1 [] [] dbEmpty _ _ rfl,
   handlers_single_top_level_key.2.2.2.2 (some "1") dbEmpty dbEmpty _ rfl⟩

/-- Claim C9: an update with nonzero user id whose body carries lat=0
and lng=0 and no name is rejected with result = "Invalid update data"
and writes nothing: Decimal(0) is falsy in Python, so the complete zero
pair fails the `lat and lng` presence test. -/
theorem update_zero_pair_rejected (db : DB) (s sa sb : String) (q : Rat)
    (hs : parseDecimal s = some q) (hq : q ≠ 0)
    (ha : parseDecimal sa = some 0) (hb : parseDecimal sb = some 0) :
    update_user_handler (some s) [("lat", sa), ("lng", sb)] db =
      Except.ok (db, [("result", JVal.str "Invalid update data")]) := by
  simp [update_user_handler, getPathId, parseOrRaise, readLat, readLng,
    List.lookup, Except.map, hs, hq, ha, hb, truthyS, truthyD]

theorem update_zero_pair_rejected_witness :
    update_user_handler (some "1") [("lat", "0"), ("lng", "0")] dbBob =
      Except.ok (dbBob, [("result", JVal.str "Invalid update data")]) :=
  update_zero_pair_rejected dbBob "1" "0" "0" 1 rfl (by decide) rfl rfl

/-- Claim C10: a body containing lng but not lat has its lng value
silently ignored, because line 79 only reads lng when lat is present:
the request behaves exactly like a name-only update (success rewriting
only the name when a truthy name is supplied, "Invalid update data"
otherwise) and the stored locations are unchanged either way. -/
theorem update_lng_without_lat_ignored (db : DB) (s : String) (q : Rat)
    (data : List (String × String))
    (hs : parseDecimal s = some q) (hq : q ≠ 0)
    (hlat : List.lookup "lat" data = none)
    (hlng : (List.lookup "lng" data).isSome = true) :
    (∀ n, List.lookup "name" data = some n → n.isEmpty = false →
      update_user_handler (some s) data db =
        Except.ok ({ db with rows := db.rows.map (fun r =>
            if (r.id : Rat) = q then { r with name := n } else r) },
          [("result", JVal.str "success")]))
    ∧ (truthyS (List.lookup "name" data) = false →
      update_user_handler (some s) data db =
        Except.ok (db, [("result", JVal.str "Invalid update data")])) := by
  constructor
  · intro n hn hne
    simp [update_user_handler, getPathId, parseOrRaise, readLat, readLng,
      applyUpdate, hs, hq, hlat, hn, hne, truthyS, truthyD]
  · intro hts
    simp [update_user_handler, getPathId, parseOrRaise, readLat, readLng,
      hs, hq, hlat, hts, truthyD]

theorem update_lng_without_lat_ignored_witness :
    (update_user_handler (some "1") [("lng", "7"), ("name", "amy")] dbBob =
      Except.ok ({ dbBob with rows := dbBob.rows.map (fun r =>
          if (r.id : Rat) = 1 then { r with name := "amy" } else r) },
        [("result", JVal.str "success")]))
    ∧ (update_user_handler (some "1") [("lng", "7")] dbBob =
      Except.ok (dbBob, [("result", JVal.str "Invalid update data")])) :=
  ⟨(update_lng_without_lat_ignored dbBob "1" 1 [("lng", "7"), ("name", "amy")]
      rfl (by decide) rfl rfl).1 "amy" rfl rfl,
   (update_lng_without_lat_ignored dbBob "1" 1 [("lng", "7")]
      rfl (by decide) rfl rfl).2 rfl⟩
